import Mathlib

/-!
Verification development for the hue CLI (src/hue-cli.js), a command-line
controller for Philips Hue bridges.  The JavaScript source is shallowly
embedded: JS numbers that hold integers become `Nat`/`Int`, JS `undefined`
and thrown exceptions become `Option`/explicit outcome records, and the
number-vs-string coercions the source relies on are modelled explicitly at
each use site.  All definitions are executable so that concrete runs can be
checked by `decide`/`rfl`.
-/

namespace HueCli

/-- Operator of a brightness expression (group 1 of the regex at
src/hue-cli.js:282): `=` absolute, `+` increment, `-` decrement. -/
inductive BriOp where
  | assign
  | plus
  | minus
deriving DecidableEq, Repr

/-- Result of matching an action token against the brightness regex
`^([-+=])([0-9]+)(%?)$` (src/hue-cli.js:282-285).  `num` is kept as the
matched *string*, exactly as in the source where `match[2]` is never
converted to a number. -/
structure BriExpr where
  op : BriOp
  num : String
  perc : Bool
deriving DecidableEq, Repr

/-- Decimal digit test, the `[0-9]` character class of the regex. -/
def isDigitChar (c : Char) : Bool := '0' ≤ c && c ≤ '9'

/-- Matching of the brightness regex `^([-+=])([0-9]+)(%?)$`
(src/hue-cli.js:282): one operator character, then one or more decimal
digits (captured greedily), then an optional percent sign, then end of
string.  Returns `none` when the token does not match. -/
def parseBriExpr (s : String) : Option BriExpr :=
  match s.data with
  | [] => none
  | c :: rest =>
    let op? : Option BriOp :=
      if c = '-' then some .minus
      else if c = '+' then some .plus
      else if c = '=' then some .assign
      else none
    match op? with
    | none => none
    | some op =>
      let digits := rest.takeWhile isDigitChar
      let tail := rest.dropWhile isDigitChar
      if digits.isEmpty then none
      else
        match tail with
        | [] => some ⟨op, ⟨digits⟩, false⟩
        | ['%'] => some ⟨op, ⟨digits⟩, true⟩
        | _ => none

/-- Numeric value of a decimal digit string: the JS `ToNumber` coercion applied
to the regex capture (which matched `[0-9]+`), as triggered by `*`, `-=` and
`Math.max` in the source. -/
def strNatVal (s : String) : Nat :=
  s.data.foldl (fun a c => 10 * a + (c.toNat - 48)) 0

/-- Percentage conversion `Math.round(num * (254 / 100))`
(src/hue-cli.js:298,302,306), modelled as exact round-half-up of
`n * 254 / 100`: for a nonnegative value JS `Math.round (a / b)` is
`(2 * a + b) / (2 * b)` in integer division. -/
def round254 (n : Nat) : Nat := (n * 254 * 2 + 100) / 200

/-- The JS expression `bri += num` at src/hue-cli.js:303, where `bri` holds a
number and `num` holds the captured digit *string*: JS `+` on number and
string is string concatenation `String(bri) ++ num`, and the later
`Math.max` coercion reads the concatenation back as a number. -/
def jsPlusConcat (cur : Nat) (num : String) : Nat :=
  strNatVal (Nat.repr cur ++ num)

/-- The brightness computation of src/hue-cli.js:294-310 for one light:
`cur` is the light's current brightness `data.state.bri`, `e` the matched
expression; the result is the value sent as the `bri` state patch after
`bri = Math.min(254, Math.max(1, bri))` (src/hue-cli.js:310).  Per-branch
JS semantics:
* `=` plain stores the digit string into `bri`; the clamp coerces it to its
  numeric value.
* `=` percent, `+` percent, `-` percent and `-` plain are numeric (`Math.round`
  returns a number, and `-=` coerces its operand).
* `+` plain is string concatenation, see `jsPlusConcat`. -/
def computeBri (e : BriExpr) (cur : Nat) : Int :=
  let raw : Int :=
    match e.op with
    | .assign =>
      if e.perc then (round254 (strNatVal e.num) : Int)
      else (strNatVal e.num : Int)
    | .plus =>
      if e.perc then (cur : Int) + (round254 (strNatVal e.num) : Int)
      else (jsPlusConcat cur e.num : Int)
    | .minus =>
      if e.perc then (cur : Int) - (round254 (strNatVal e.num) : Int)
      else (cur : Int) - (strNatVal e.num : Int)
  min 254 (max 1 raw)

/-- Brightness patch for an action token: `some v` when the token matches the
brightness regex and the dispatched state patch is `bri = v`, `none` when the
token is not a brightness expression. -/
def briPatch (s : String) (cur : Nat) : Option Int :=
  (parseBriExpr s).map (fun e => computeBri e cur)

/-- C3: for every brightness expression (`=N`, `+N`, `-N`, plain or percent) and
every starting brightness, the value sent to the bridge lies in the closed
range [1, 254]: never 0 and never above 254. -/
theorem briPatch_mem_Icc (s : String) (cur : Nat) (v : Int)
    (h : briPatch s cur = some v) : 1 ≤ v ∧ v ≤ 254 := by
  rcases hp : parseBriExpr s with _ | e
  · simp [briPatch, hp] at h
  · have hv : v = computeBri e cur := by
      simp [briPatch, hp] at h
      exact h.symm
    subst hv
    unfold computeBri
    exact ⟨le_min (by norm_num) (le_max_left 1 _), min_le_left 254 _⟩

/-- Closed witness for `briPatch_mem_Icc` at the token `-300` on brightness 10
(raw result −290, clamped to 1). -/
theorem briPatch_mem_Icc_witness :
    briPatch "-300" 10 = some 1 ∧ (1 ≤ (1 : Int) ∧ (1 : Int) ≤ 254) :=
  ⟨by decide, briPatch_mem_Icc "-300" 10 1 (by decide)⟩

/-- C2 (code bug): the plain increment `+N` does not add `N` to the current
brightness.  With current brightness 50 the token `+10` yields 254, because
`bri += num` concatenates the number 50 with the string "10" giving 5010,
which the clamp caps at 254 — while the usage text of the source itself
(src/hue-cli.js:44, `increase the brightness by 10`) and the claim demand
50 + 10 = 60. -/
theorem plusTen_at_fifty_is_254 :
    briPatch "+10" 50 = some 254 ∧ briPatch "+10" 50 ≠ some 60 ∧
      jsPlusConcat 50 "10" = 5010 := by decide

/-- C6: the absolute percentage expressions behave as claimed on every light:
`=100%` always yields brightness 254 and `=0%` always yields the clamp
floor 1 (round(0) = 0, clamped up to 1), whatever the current brightness. -/
theorem assignPercent_extremes (cur : Nat) :
    briPatch "=100%" cur = some 254 ∧ briPatch "=0%" cur = some 1 :=
  ⟨rfl, rfl⟩

/-! ## Config load (src/hue-cli.js:124-134) -/

/-- The default config path `path.join(homedir, ".hue.json")`
(src/hue-cli.js:24); a nonempty string. -/
def defaultconfigfile : String := "~/.hue.json"

/-- JS truthiness of the `configfile` variable, which holds `undefined` or a
path string. -/
def jsTruthy : Option String → Bool
  | none => false
  | some s => !s.isEmpty

/-- Outcome of the startup config-load block: whether `process.exit(1)` was
reached, the resulting `config` value, and the final value of the
`configfile` variable. -/
structure LoadResult (α : Type) where
  exit1 : Bool
  config : α
  configfile : Option String
deriving Repr

/-- The config-load try/catch of src/hue-cli.js:124-134.  `explicitPath` is
the `-c` option value (the `configfile` variable before the block), `read`
models `fs.readFileSync` (`none` = throws), `parse` models `JSON.parse`
(`none` = throws), `merge` is `deepmerge(readConfig, config)` and `cfg0` the
config accumulated from flags.  The source assigns `configfile = file`
inside the `try`, *before* the read, so by the time the `catch` guard
`if (configfile)` runs, `configfile` always holds the resolved (nonempty)
path — also when no `-c` flag was given. -/
def configLoad {α : Type} (explicitPath : Option String)
    (read : String → Option String) (parse : String → Option α)
    (merge : α → α → α) (cfg0 : α) : LoadResult α :=
  let file := match explicitPath with
    | some p => if p.isEmpty then defaultconfigfile else p
    | none => defaultconfigfile
  let configfileVar : Option String := some file
  match read file >>= parse with
  | some readConfig => ⟨false, merge readConfig cfg0, configfileVar⟩
  | none =>
    if jsTruthy configfileVar then ⟨true, cfg0, configfileVar⟩
    else ⟨false, cfg0, configfileVar⟩

/-- C1 (code bug): when no `-c` path is given and the default config file
cannot be read, the program does *not* proceed silently: the `catch` guard
`if (configfile)` is always true because `configfile` was reassigned inside
the `try`, so the load block reports the error and exits 1.  The claim (and
the dead guard itself) demand `exit1 = false` here. -/
theorem configLoad_default_missing_exits {α : Type}
    (read : String → Option String) (parse : String → Option α)
    (merge : α → α → α) (cfg0 : α) (h : read defaultconfigfile = none) :
    (configLoad none read parse merge cfg0).exit1 = true := by
  simp only [defaultconfigfile] at h
  simp [configLoad, h, jsTruthy, defaultconfigfile]
  rw [if_pos (by decide)]

/-- Closed witness for `configLoad_default_missing_exits`: a file system with
no readable files at all. -/
theorem configLoad_default_missing_exits_witness :
    (configLoad (α := Nat) none (fun _ => none) (fun _ => none)
      (fun a _ => a) 0).exit1 = true :=
  configLoad_default_missing_exits (fun _ => none) (fun _ => none)
    (fun a _ => a) 0 rfl

/-! ## Light selector (src/hue-cli.js:171-210) -/

/-- JS `String.prototype.split(",")`, written structurally so that it reduces
in the kernel: splits on every comma, keeping empty fragments, and returns
`[""]` for the empty string. -/
def splitCommaAux : List Char → List Char → List String
  | [], acc => [⟨acc.reverse⟩]
  | c :: rest, acc =>
    if c = ',' then ⟨acc.reverse⟩ :: splitCommaAux rest []
    else splitCommaAux rest (c :: acc)

/-- The comma split `args[1].split(",")` of src/hue-cli.js:172. -/
def splitComma (s : String) : List String := splitCommaAux s.data []

/-- The recognized shortcut keywords of the selector switch
(src/hue-cli.js:173-204). -/
def shortcutKeywords : List String :=
  ["all", "on", "off", "colorloop", "alert", "clear", "reset", "state"]

/-- Selector shortcut expansion, src/hue-cli.js:171-210.  `arg1` is the raw
selector token, `keys` the known light ids (`Object.keys(lights)`),
`aliasVal` the config alias table lookup, `arg2` the action token.  The
source computes `l = args[1].split(",")` and then runs `switch (l[0])` —
the switch scrutinee is the *first element* of the split.  In the default
branch, `config.alias[l]` coerces the array `l` to the property key
`l.join(",")`, which is the original `arg1`; a falsy (empty-string) alias
value is not used.  Returns the selection list and the possibly overwritten
action token. -/
def expandSelection (arg1 : String) (keys : List String)
    (aliasVal : String → Option String) (arg2 : Option String) :
    List String × Option String :=
  let l := splitComma arg1
  let h := l.head?.getD ""
  if h = "all" then (keys, arg2)
  else if h = "on" then (keys, some "on")
  else if h = "off" then (keys, some "off")
  else if h = "colorloop" then (keys, some "colorloop")
  else if h = "alert" then (keys, some "alert")
  else if h = "clear" then (keys, some "clear")
  else if h = "reset" then (keys, some "reset")
  else if h = "state" then (keys, some "state")
  else
    match aliasVal arg1 with
    | some v => if v.isEmpty then (l, arg2) else (splitComma v, arg2)
    | none => (l, arg2)

/-- C4 (counterexample): the claim says the comma list `off,3` — first element
a shortcut, but with further elements — is *not* expanded and is used as the
literal id list `["off", "3"]`.  The code switches on the first element
alone, so it replaces the selection with all known ids and forces the action
to `off`. -/
theorem expandSelection_offComma_not_literal :
    expandSelection "off,3" ["1", "2"] (fun _ => none) none ≠
      (["off", "3"], (none : Option String)) ∧
    expandSelection "off,3" ["1", "2"] (fun _ => none) none =
      (["1", "2"], some "off") := by decide

/-- C4 (amended): shortcut expansion is decided by the *first element* of the
comma-split selector alone: whenever that first element is a recognized
shortcut keyword — regardless of any further list elements, which are
discarded — the selection becomes all known light ids, and except for `all`
the action token is set to that keyword. -/
theorem expandSelection_firstElement_shortcut (arg1 : String)
    (keys : List String) (aliasVal : String → Option String)
    (arg2 : Option String) (kw : String) (hkw : kw ∈ shortcutKeywords)
    (hhead : (splitComma arg1).head?.getD "" = kw) :
    expandSelection arg1 keys aliasVal arg2 =
      (keys, if kw = "all" then arg2 else some kw) := by
  fin_cases hkw <;> simp [expandSelection, hhead]

/-- Closed witness for `expandSelection_firstElement_shortcut` at the selector
`off,3`. -/
theorem expandSelection_firstElement_shortcut_witness :
    expandSelection "off,3" ["1", "2"] (fun _ => none) none =
      (["1", "2"], if ("off" : String) = "all" then none else some "off") :=
  expandSelection_firstElement_shortcut "off,3" ["1", "2"] (fun _ => none)
    none "off" (by decide) (by decide)

/-! ## Hex color parsing (src/hue-cli.js:480-499) -/

/-- Whitespace skipped by JS `parseInt` before the number (the common ASCII
cases). -/
def isJsSpace (c : Char) : Bool := c = ' ' || c = '\t' || c = '\n' || c = '\r'

/-- Value of one hexadecimal digit, case-insensitive; `none` for every other
character. -/
def hexDigitVal (c : Char) : Option Nat :=
  if '0' ≤ c && c ≤ '9' then some (c.toNat - 48)
  else if 'a' ≤ c && c ≤ 'f' then some (c.toNat - 87)
  else if 'A' ≤ c && c ≤ 'F' then some (c.toNat - 55)
  else none

/-- Accumulates the maximal leading run of hex digits, stopping at the first
non-digit, as JS `parseInt` does. -/
def hexDigitsVal (cs : List Char) (acc : Nat) : Nat :=
  match cs with
  | [] => acc
  | c :: rest =>
    match hexDigitVal c with
    | some v => hexDigitsVal rest (16 * acc + v)
    | none => acc

/-- JS `parseInt(s, 16)`: skip leading whitespace, accept an optional sign and
an optional `0x`/`0X` prefix, then read the maximal run of hex digits;
`none` models the `NaN` result when no digit is found. -/
def parseIntHex (s : List Char) : Option Int :=
  let s1 := s.dropWhile isJsSpace
  let signed : Int × List Char :=
    match s1 with
    | '-' :: r => (-1, r)
    | '+' :: r => (1, r)
    | r => (1, r)
  let s2 : List Char :=
    match signed.2 with
    | '0' :: 'x' :: r => r
    | '0' :: 'X' :: r => r
    | r => r
  match s2 with
  | [] => none
  | c :: _ =>
    match hexDigitVal c with
    | some _ => some (signed.1 * (hexDigitsVal s2 0 : Int))
    | none => none

/-- String contributed by a JS character-index read: the character itself, or
the text `undefined` when the index is out of range (JS stringifies
`undefined` when concatenating). -/
def jsCharStr : Option Char → List Char
  | some c => [c]
  | none => "undefined".data

/-- `todec(h, i) = parseInt(h + "" + i, 16)` from src/hue-cli.js:496-498,
with out-of-range reads contributing the text `undefined`. -/
def todec (h i : Option Char) : Option Int :=
  parseIntHex (jsCharStr h ++ jsCharStr i)

/-- The leading-`#` strip `if (hex[0] === "#") hex = hex.slice(1)` of
src/hue-cli.js:481. -/
def stripHash : List Char → List Char
  | c :: rest => if c = '#' then rest else c :: rest
  | [] => []

/-- `hex2rgb` of src/hue-cli.js:480-499: strip a leading `#`; a 3-character
string duplicates each nibble, anything else is read as six characters at
indices 0..5.  A `none` channel models a `NaN` produced by `parseInt`. -/
def hex2rgb (hex : String) : Option Int × Option Int × Option Int :=
  let cs := stripHash hex.data
  if cs.length = 3 then
    (todec cs[0]? cs[0]?, todec cs[1]? cs[1]?, todec cs[2]? cs[2]?)
  else
    (todec cs[0]? cs[1]?, todec cs[2]? cs[3]?, todec cs[4]? cs[5]?)

/-- Hexadecimal digit test used to state C7. -/
def isHexDigitChar (c : Char) : Bool := (hexDigitVal c).isSome

/-- C7: for all hex digits `a`, `b`, `c`, parsing the 3-character string `abc`
equals parsing the expanded 6-character form `aabbcc`, and likewise with a
leading `#`, which is stripped before the length dispatch in both cases. -/
theorem hex2rgb_shorthand_eq (a b c : Char) (ha : isHexDigitChar a = true)
    (hb : isHexDigitChar b = true) (hc : isHexDigitChar c = true) :
    hex2rgb ⟨[a, b, c]⟩ = hex2rgb ⟨[a, a, b, b, c, c]⟩ ∧
    hex2rgb ⟨['#', a, b, c]⟩ = hex2rgb ⟨['#', a, a, b, b, c, c]⟩ := by
  have ha' : ¬ a = '#' := by
    intro h
    rw [h] at ha
    exact absurd ha (by decide)
  constructor <;> simp [hex2rgb, stripHash, ha']

/-- Closed witness for `hex2rgb_shorthand_eq` at the digits `f`, `0`, `a`. -/
theorem hex2rgb_shorthand_eq_witness :
    isHexDigitChar 'f' = true ∧
    hex2rgb ⟨['f', '0', 'a']⟩ = hex2rgb ⟨['f', 'f', '0', '0', 'a', 'a']⟩ :=
  ⟨by decide, (hex2rgb_shorthand_eq 'f' '0' 'a' (by decide) (by decide)
    (by decide)).1⟩

/-! ## Default action dispatch (src/hue-cli.js:278-333) -/

/-- The color-table fallback `csscolors[s] || s` of src/hue-cli.js:327: a
missing key — or a falsy (empty-string) value — falls back to the token
itself. -/
def resolveColor (colors : String → Option String) (s : String) : String :=
  match colors s with
  | some v => if v.isEmpty then s else v
  | none => s

/-- What the default branch of the action switch dispatches for a token:
either a per-light brightness adjustment, or one `client.rgb` call per
selected light carrying the three parsed channels. -/
inductive ActionDispatch where
  | briAdjust (e : BriExpr)
  | rgbCall (r g b : Option Int)
deriving DecidableEq, Repr

/-- The default branch of the action switch, src/hue-cli.js:278-333: a token
matching the brightness regex starts the brightness flow; any other token is
resolved through the color table and dispatched as a `client.rgb` call —
there is no malformed-hex check anywhere on this path. -/
def defaultActionDispatch (s : String) (colors : String → Option String) :
    ActionDispatch :=
  match parseBriExpr s with
  | some e => .briAdjust e
  | none =>
    let t := hex2rgb (resolveColor colors s)
    .rgbCall t.1 t.2.1 t.2.2

/-- C10 (counterexample): the token `zzz` is not a brightness expression, is
not a known color name (empty color table) and consists of non-hex
characters, yet the program raises no error: it dispatches an RGB-set call
whose three channels are all `NaN` (modelled `none`). -/
theorem malformedHex_dispatches_rgb :
    parseBriExpr "zzz" = none ∧
    defaultActionDispatch "zzz" (fun _ => none) =
      .rgbCall none none none := by decide

/-- C10 (amended): the program performs no malformed-hex validation: every
action token that is not a brightness expression is resolved through the
color table and an RGB-set call is dispatched to the bridge for each
selected light, carrying whatever channels `hex2rgb` produced — `NaN`
(modelled `none`) included — and no error is ever raised on this path. -/
theorem nonBrightness_always_dispatches_rgb (s : String)
    (colors : String → Option String) (h : parseBriExpr s = none) :
    defaultActionDispatch s colors =
      .rgbCall (hex2rgb (resolveColor colors s)).1
        (hex2rgb (resolveColor colors s)).2.1
        (hex2rgb (resolveColor colors s)).2.2 := by
  simp [defaultActionDispatch, h]

/-- Closed witness for `nonBrightness_always_dispatches_rgb` at the token
`zzz`. -/
theorem nonBrightness_always_dispatches_rgb_witness :
    defaultActionDispatch "zzz" (fun _ => none) =
      .rgbCall (hex2rgb (resolveColor (fun _ => none) "zzz")).1
        (hex2rgb (resolveColor (fun _ => none) "zzz")).2.1
        (hex2rgb (resolveColor (fun _ => none) "zzz")).2.2 :=
  nonBrightness_always_dispatches_rgb "zzz" (fun _ => none) (by decide)

/-! ## Per-light result callback (src/hue-cli.js:336-362) -/

/-- A bridge error object as surfaced by the client library: a description and
a numeric type. -/
structure HueError where
  description : String
  type : Int
deriving DecidableEq, Repr

/-- The attributes of a light consumed by the callback: `name` and
`state.on`. -/
structure Light where
  name : String
  stateOn : Bool
deriving DecidableEq, Repr

/-- One observable effect of the callback: a stdout line, a stderr line, or a
thrown (uncaught) error. -/
inductive OutEv where
  | stdout (s : String)
  | stderr (s : String)
  | thrown (description : String)
deriving DecidableEq, Repr

/-- The per-light completion callback `callback(id)` of src/hue-cli.js:336-362,
used by the on/off/colorloop/alert/clear/reset/state/rgb dispatches.
`opErr` is the error the bridge reported for this light's call (the `err`
parameter of the returned function); `lightsErr` and `lights` are the result
of the `client.lights` refetch performed inside.  The inner callback's `err`
parameter SHADOWS the per-light `opErr`, so `opErr` is never read: the body
throws if the refetch failed (`if (err) throw err`), making the subsequent
`if (err) return console.error(...)` line unreachable, and otherwise prints
the per-action success line (or, in JSON mode, `JSON.stringify(err || null, 2)`,
which is `null` since the refetch `err` is null there). -/
def callbackRun (json : Bool) (arg2 : Option String) (id : String)
    (opErr : Option HueError) (lightsErr : Option HueError)
    (lights : String → Option Light) : List OutEv :=
  match lightsErr with
  | some e => [.thrown e.description]
  | none =>
    let lightName := match lights id with
      | some l => l.name
      | none => "light " ++ id
    let stateOn := match lights id with
      | some l => l.stateOn
      | none => false
    if json then [.stdout "null"]
    else if arg2 = some "on" ∨ arg2 = some "off" then
      [.stdout ((if stateOn then "💡" else "🌑") ++ " " ++ lightName ++
        " was turned " ++ (if stateOn then "on" else "off"))]
    else if arg2 = some "reset" then
      [.stdout (lightName ++ " reset to default state")]
    else if arg2 = some "colorloop" then
      [.stdout (lightName ++ " color loop started")]
    else if arg2 = some "alert" then
      [.stdout (lightName ++ " alert started")]
    else if arg2 = some "clear" then
      [.stdout (lightName ++ " effects cleared")]
    else if arg2 = some "state" then
      [.stdout (lightName ++ " state changed")]
    else
      [.stdout (lightName ++ " color changed")]

/-- C5 (code bug): the per-light operation error is never reported.  The
callback's observable behavior is identical whatever error the bridge
reported for the light's own call (the `err` parameter is shadowed), and on
the concrete failing run — `on` for light 3 rejected by the bridge while the
refetch succeeds — the output is the normal success line, with no error
report beside the light's name. -/
theorem callbackRun_ignores_operation_error :
    (∀ (json : Bool) (arg2 : Option String) (id : String)
      (e e' : Option HueError) (le : Option HueError)
      (ls : String → Option Light),
      callbackRun json arg2 id e le ls = callbackRun json arg2 id e' le ls) ∧
    callbackRun false (some "on") "3" (some ⟨"bridge rejected the call", 3⟩)
      none (fun _ => some ⟨"Desk", true⟩) =
      [.stdout "💡 Desk was turned on"] :=
  ⟨fun _ _ _ _ _ _ _ => rfl, by decide⟩

/-! ## The register command (src/hue-cli.js:365-391) -/

/-- Result of `fs.statSync` as used by `statPath`; only `isFile()` is
consumed. -/
structure FileStat where
  isFile : Bool
deriving DecidableEq, Repr

/-- Observable trace of one run of the `register` command: the exit code if
`process.exit` was called synchronously, and whether a client was created
(`getclient`), the pairing request `client.register` was issued, and the
config file was written. -/
structure RegisterTrace where
  exitCode : Option Nat
  clientCreated : Bool
  registerCalled : Bool
  configWritten : Bool
deriving DecidableEq, Repr

/-- Continuation of `register` after the existing-config check: `getclient`
exits 1 when `config.host` is unset; otherwise the pairing request is sent
and the config file is written only when the pairing callback reports
success (`regResp = some username`); on error the callback throws. -/
def registerCmdRest (hostSet : Bool) (regResp : Option String) :
    RegisterTrace :=
  if !hostSet then ⟨some 1, false, false, false⟩
  else
    match regResp with
    | none => ⟨none, true, true, false⟩
    | some _ => ⟨none, true, true, true⟩

/-- The `register` command of src/hue-cli.js:365-391: first
`statPath(configfile)` (`none` models the `false` returned when `statSync`
throws); when the path exists and is a file, the command prints a refusal and
exits 1 before `getclient()` is called. -/
def registerCmd (stat : Option FileStat) (hostSet : Bool)
    (regResp : Option String) : RegisterTrace :=
  match stat with
  | some st =>
    if st.isFile then ⟨some 1, false, false, false⟩
    else registerCmdRest hostSet regResp
  | none => registerCmdRest hostSet regResp

/-- C8: when a config file already exists at the target path, `register` exits
with code 1 before any network I/O — no client is created and no pairing
request is sent — and never reaches the config-write, leaving the existing
file unmodified; this holds whatever the host setting and whatever the
pairing would have answered. -/
theorem registerCmd_existing_config_fails_early (st : FileStat)
    (hostSet : Bool) (regResp : Option String) (h : st.isFile = true) :
    registerCmd (some st) hostSet regResp = ⟨some 1, false, false, false⟩ := by
  simp [registerCmd, h]

/-- Closed witness for `registerCmd_existing_config_fails_early`. -/
theorem registerCmd_existing_config_fails_early_witness :
    registerCmd (some ⟨true⟩) true (some "user") =
      ⟨some 1, false, false, false⟩ :=
  registerCmd_existing_config_fails_early ⟨true⟩ true (some "user") rfl

/-! ## The state action's stdout (src/hue-cli.js:264-277) -/

/-- A stdout line, classified: a human-readable message or a JSON document. -/
inductive OutLine where
  | human (s : String)
  | jsonDoc (s : String)
deriving DecidableEq, Repr

/-- Whether a stdout line is a JSON document. -/
def OutLine.isJsonDoc : OutLine → Bool
  | .jsonDoc _ => true
  | .human _ => false

/-- Stdout lines the `state` action writes synchronously — before any bridge
response can arrive — at src/hue-cli.js:264-277.  `json` is the `-j` flag,
which the source never consults on these lines; `stdinParseOk` tells whether
the stdin read-and-parse succeeded (on failure the remaining output goes to
stderr and the process exits 1); `dataRepr` is `console.log`'s rendering of
the parsed object, appended after the message. -/
def stateActionSyncStdout (json : Bool) (stdinParseOk : Bool)
    (dataRepr : String) (ids : List String) : List OutLine :=
  .human "Reading state data from stdin..." ::
    (if stdinParseOk then
      .human ("State data read from stdin: " ++ dataRepr) ::
        ids.map (fun id =>
          .human ("Setting state for light " ++ id ++ " with data: " ++ dataRepr))
    else [])

/-- C9 (counterexample): an invocation of the lights command with the `state`
action under `-j` (json mode on, stdin parsed, one light selected) writes
lines to stdout that are not JSON — the unconditional progress messages — so
its stdout is not exclusively parseable JSON. -/
theorem stateAction_json_mode_writes_human_lines :
    (stateActionSyncStdout true true "d" ["1"]).all OutLine.isJsonDoc =
      false ∧
    OutLine.human "Reading state data from stdin..." ∈
      stateActionSyncStdout true true "d" ["1"] := by decide

/-- C9 (amended): output-mode exclusivity fails for the `state` action: its
progress lines are written to stdout unconditionally, never consulting the
`-j` flag — every synchronously written line is human-readable and the first
is always the stdin notice — so JSON mode interleaves human text with the
JSON documents the per-light callbacks later print. -/
theorem stateAction_stdout_independent_of_json_flag (json : Bool)
    (stdinParseOk : Bool) (dataRepr : String) (ids : List String) :
    (stateActionSyncStdout json stdinParseOk dataRepr ids).head? =
      some (.human "Reading state data from stdin...") ∧
    (stateActionSyncStdout json stdinParseOk dataRepr ids).all
      (fun l => !l.isJsonDoc) = true := by
  refine ⟨rfl, ?_⟩
  cases stdinParseOk <;>
    simp [stateActionSyncStdout, OutLine.isJsonDoc, List.all_eq_true]

end HueCli
